import Mathlib

/-!
Verification development for the parquet-edge sensor pipeline
(src/main.py, src/sensor_to_parquet_fastparquet.py,
src/scripts/daily_aggregation.py).

Wall-clock instants are modelled at whole-second precision as `Nat`
seconds since the Unix epoch: the scheduler in src/main.py only ever
inspects the integer `minute` and `second` fields of a
`datetime.fromtimestamp` value and compares epoch-second counts, so this
is the granularity at which the boundary logic operates.  Analog sensor
values are modelled as `ℚ`.
-/

namespace ParquetEdge

/-! ### Configuration constants (src/main.py lines 35-46) -/

def READ_INTERVAL : Nat := 1

def BATCH_DURATION : Nat := 300

def STATION_ID : String := "01"

def STATION_LATITUDE : ℚ := 300626 / 10000

def STATION_LONGITUDE : ℚ := 314916 / 10000

def TEMP_COMPENSATION_ENABLED : Bool := true

def TEMP_COMPENSATION_FACTOR : ℚ := 225 / 100

/-! ### Wall-clock field extraction

`datetime.datetime.fromtimestamp(t, timezone.utc)` on an epoch-second
count `t` has integer fields `minute = t / 60 % 60` and
`second = t % 60`; `hour = t / 3600 % 24`. -/

def minuteOf (t : Nat) : Nat := t / 60 % 60

def secondOf (t : Nat) : Nat := t % 60

def hourOf (t : Nat) : Nat := t / 3600 % 24

/-! ### Batch window scheduler (src/main.py lines 161-251) -/

/-- Startup alignment, src/main.py lines 166-175: the seconds from `now`
to the next 5-minute boundary, replaced by the full `BATCH_DURATION`
when `now` sits exactly on a boundary (so the first window is never
zero-length). -/
def firstBatchDuration (now : Nat) : Nat :=
  let minutes_to_add := 5 - minuteOf now % 5
  let seconds_to_next_5min :=
    if minutes_to_add = 5 ∧ secondOf now = 0 then 0
    else minutes_to_add * 60 - secondOf now
  if 0 < seconds_to_next_5min then seconds_to_next_5min else BATCH_DURATION

/-- The first window boundary: src/main.py lines 178-179,
`next_batch_end = batch_start + first_batch_duration`. -/
def firstBoundary (now : Nat) : Nat := now + firstBatchDuration now

/-- Post-flush re-snap to the 5-minute grid, src/main.py lines 238-246:
if the instant is not exactly on a 5-minute boundary, add the seconds
remaining up to the next one. -/
def realignBoundary (t : Nat) : Nat :=
  let minutes_to_add := 5 - minuteOf t % 5
  if minutes_to_add = 5 ∧ secondOf t = 0 then t
  else t + (minutes_to_add * 60 - secondOf t)

/-- Boundary advance after a flush, src/main.py lines 236-246: the sum
`next_batch_end + BATCH_DURATION` followed by the re-snap.  It is a
function of the previous boundary alone: the current wall-clock time is
not an input. -/
def nextBoundary (b : Nat) : Nat := realignBoundary (b + BATCH_DURATION)

/-- Loop state: the accumulated batch (readings identified by their
sample time) and the pending window boundary `next_batch_end`. -/
structure SchedState where
  batch : List Nat
  nextEnd : Nat
deriving DecidableEq

/-- The main loop of src/main.py lines 182-246, driven by an arbitrary
finite sequence of tick times: each tick appends the reading, then
checks `current_time >= next_batch_end`; on a flush it emits the event
`(boundary, batch)` (the parquet write), clears the buffer and advances
the boundary.  Returns the final state and the flush events in order. -/
def runLoop : SchedState → List Nat → SchedState × List (Nat × List Nat)
  | s, [] => (s, [])
  | s, t :: ts =>
    let appended := s.batch ++ [t]
    if s.nextEnd ≤ t then
      let rest := runLoop ⟨[], nextBoundary s.nextEnd⟩ ts
      (rest.1, (s.nextEnd, appended) :: rest.2)
    else
      runLoop ⟨appended, s.nextEnd⟩ ts

/-- The flush events produced from a fresh start with first boundary
`b0`. -/
def flushEvents (b0 : Nat) (ts : List Nat) : List (Nat × List Nat) :=
  (runLoop ⟨[], b0⟩ ts).2

/-! ### Temperature compensation (src/main.py lines 59-98)

`get_cpu_temperature` reads the CPU thermal zone; on an `IOError` or
`ValueError` it returns the fixed fallback `40.0`.  The proxy buffer
`cpu_temps` (a process global in the source) is threaded explicitly. -/

def get_cpu_temperature (deviceRead : Option ℚ) : ℚ := deviceRead.getD 40

/-- src/main.py lines 72-98.  `enabled` is the module constant
`TEMP_COMPENSATION_ENABLED`; when it is false the raw value is returned
and the buffer is untouched.  Otherwise: an empty buffer is filled with
5 copies of the current proxy sample, a non-empty one drops its oldest
entry and appends the new sample; the result applies
`raw - ((avg - raw) / TEMP_COMPENSATION_FACTOR)` with `avg` the mean of
the updated buffer.  Returns (compensated value, updated buffer). -/
def compensate_temperature (enabled : Bool) (cpu_temps : List ℚ)
    (raw_temp cpu_temp : ℚ) : ℚ × List ℚ :=
  if enabled = false then (raw_temp, cpu_temps)
  else
    let buf :=
      if cpu_temps.length = 0 then List.replicate 5 cpu_temp
      else cpu_temps.tail ++ [cpu_temp]
    let avg_cpu_temp := buf.sum / (buf.length : ℚ)
    (raw_temp - ((avg_cpu_temp - raw_temp) / TEMP_COMPENSATION_FACTOR), buf)

/-- `n` consecutive compensation calls with constant raw and proxy
inputs, starting from buffer `st`; returns the outputs in order and the
final buffer. -/
def compSeq (raw proxy : ℚ) : List ℚ → Nat → List ℚ × List ℚ
  | st, 0 => ([], st)
  | st, n + 1 =>
    let c := compensate_temperature true st raw proxy
    let rest := compSeq raw proxy c.2 n
    (c.1 :: rest.1, rest.2)

/-! ### Sensor reading (src/main.py lines 101-158)

Each `SensorPort` access is an `Except`: the PMS5003 read is the only
one wrapped in a `try/except` in the source (catching `ReadTimeoutError`
and `ValueError`), so only its failures are recovered; a failure raised
by any other device read propagates out of `read_sensors`. -/

inductive SensorFailure where
  | readTimeout
  | invalidValue
deriving DecidableEq

deriving instance DecidableEq for Except

/-- The record returned by `gas.read_all()` (resistances in ohms). -/
structure GasReading where
  oxidising : ℚ
  reducing : ℚ
  nh3 : ℚ
deriving DecidableEq

/-- The record returned by `pms5003.read()`: `pm_ug_per_m3` at 1.0, 2.5,
10.0 and `pm_per_1l_air` at the six bucket sizes. -/
structure PmReading where
  pm1 : ℚ
  pm2_5 : ℚ
  pm10 : ℚ
  particles_03um : ℚ
  particles_05um : ℚ
  particles_10um : ℚ
  particles_25um : ℚ
  particles_50um : ℚ
  particles_100um : ℚ
deriving DecidableEq

/-- The `SENSOR_CONFIG` dict, src/main.py lines 28-33. -/
structure SensorConfig where
  bme280 : Bool
  gas : Bool
  ltr559 : Bool
  pms5003 : Bool
deriving DecidableEq

/-- The source configuration: every capability enabled. -/
def fullConfig : SensorConfig :=
  { bme280 := true, gas := true, ltr559 := true, pms5003 := true }

/-- One tick's worth of device responses. -/
structure SensorInput where
  now : ℚ
  bmeTemperatureRead : Except SensorFailure ℚ
  bmePressureRead : Except SensorFailure ℚ
  bmeHumidityRead : Except SensorFailure ℚ
  gasRead : Except SensorFailure GasReading
  luxRead : Except SensorFailure ℚ
  proximityRead : Except SensorFailure ℚ
  pmRead : Except SensorFailure PmReading
  cpuTemperatureRead : Option ℚ
deriving DecidableEq

/-- The per-tick record assembled by `read_sensors`.  A field whose
capability is disabled, or that was nulled after a recovered particulate
failure, is `none` (dict key absent, resp. set to `None`, in the
source). -/
structure Reading where
  timestamp : ℚ
  latitude : ℚ
  longitude : ℚ
  temperature : Option ℚ
  raw_temperature : Option ℚ
  pressure : Option ℚ
  humidity : Option ℚ
  oxidised : Option ℚ
  reducing : Option ℚ
  nh3 : Option ℚ
  lux : Option ℚ
  proximity : Option ℚ
  pm1 : Option ℚ
  pm2_5 : Option ℚ
  pm10 : Option ℚ
  particles_03um : Option ℚ
  particles_05um : Option ℚ
  particles_10um : Option ℚ
  particles_25um : Option ℚ
  particles_50um : Option ℚ
  particles_100um : Option ℚ
deriving DecidableEq

/-- The dict right after the timestamp and static location entries,
src/main.py lines 105-113. -/
def emptyReading (now : ℚ) : Reading :=
  { timestamp := now, latitude := STATION_LATITUDE,
    longitude := STATION_LONGITUDE,
    temperature := none, raw_temperature := none, pressure := none,
    humidity := none, oxidised := none, reducing := none, nh3 := none,
    lux := none, proximity := none, pm1 := none, pm2_5 := none,
    pm10 := none, particles_03um := none, particles_05um := none,
    particles_10um := none, particles_25um := none,
    particles_50um := none, particles_100um := none }

/-- src/main.py lines 118-123: unguarded BME280 reads; the raw
temperature is compensated through the proxy buffer. -/
def bmeBlock (cfg : SensorConfig) (inp : SensorInput) (cpu_temps : List ℚ)
    (data : Reading) : Except SensorFailure (Reading × List ℚ) :=
  if cfg.bme280 then
    match inp.bmeTemperatureRead with
    | .error e => .error e
    | .ok raw_temp =>
      let c := compensate_temperature TEMP_COMPENSATION_ENABLED cpu_temps
        raw_temp (get_cpu_temperature inp.cpuTemperatureRead)
      match inp.bmePressureRead with
      | .error e => .error e
      | .ok p =>
        match inp.bmeHumidityRead with
        | .error e => .error e
        | .ok h =>
          .ok ({ data with
                   temperature := some c.1,
                   raw_temperature := some raw_temp,
                   pressure := some p,
                   humidity := some h }, c.2)
  else .ok (data, cpu_temps)

/-- src/main.py lines 125-130: unguarded `gas.read_all()`, values
converted from ohms to kilo-ohms. -/
def gasBlock (cfg : SensorConfig) (inp : SensorInput) (data : Reading) :
    Except SensorFailure Reading :=
  if cfg.gas then
    match inp.gasRead with
    | .error e => .error e
    | .ok g =>
      .ok { data with
              oxidised := some (g.oxidising / 1000),
              reducing := some (g.reducing / 1000),
              nh3 := some (g.nh3 / 1000) }
  else .ok data

/-- src/main.py lines 132-134: unguarded LTR559 reads. -/
def ltrBlock (cfg : SensorConfig) (ltr559Present : Bool) (inp : SensorInput)
    (data : Reading) : Except SensorFailure Reading :=
  if cfg.ltr559 && ltr559Present then
    match inp.luxRead with
    | .error e => .error e
    | .ok l =>
      match inp.proximityRead with
      | .error e => .error e
      | .ok p => .ok { data with lux := some l, proximity := some p }
  else .ok data

/-- src/main.py lines 136-156: the PMS5003 read, the only guarded one.
On `ReadTimeoutError` or `ValueError` (both `SensorFailure` cases) every
particulate field is set to `None` and the reading continues. -/
def pmBlock (cfg : SensorConfig) (pms5003Present : Bool) (inp : SensorInput)
    (data : Reading) : Reading :=
  if cfg.pms5003 && pms5003Present then
    match inp.pmRead with
    | .ok pm =>
      { data with
          pm1 := some pm.pm1,
          pm2_5 := some pm.pm2_5,
          pm10 := some pm.pm10,
          particles_03um := some pm.particles_03um,
          particles_05um := some pm.particles_05um,
          particles_10um := some pm.particles_10um,
          particles_25um := some pm.particles_25um,
          particles_50um := some pm.particles_50um,
          particles_100um := some pm.particles_100um }
    | .error _ =>
      { data with
          pm1 := none,
          pm2_5 := none,
          pm10 := none,
          particles_03um := none,
          particles_05um := none,
          particles_10um := none,
          particles_25um := none,
          particles_50um := none,
          particles_100um := none }
  else data

/-- src/main.py lines 101-158: assemble one reading; the proxy buffer
update from the compensation call is returned alongside. -/
def read_sensors (cfg : SensorConfig) (ltr559Present pms5003Present : Bool)
    (inp : SensorInput) (cpu_temps : List ℚ) :
    Except SensorFailure (Reading × List ℚ) :=
  match bmeBlock cfg inp cpu_temps (emptyReading inp.now) with
  | .error e => .error e
  | .ok s1 =>
    match gasBlock cfg inp s1.1 with
    | .error e => .error e
    | .ok r2 =>
      match ltrBlock cfg ltr559Present inp r2 with
      | .error e => .error e
      | .ok r3 => .ok (pmBlock cfg pms5003Present inp r3, s1.2)

/-- A run of consecutive ticks inside one window: each tick samples and
appends its reading to the batch, threading the proxy buffer. -/
def sampleWindow (cfg : SensorConfig) (ltr559Present pms5003Present : Bool) :
    List SensorInput → List ℚ → Except SensorFailure (List Reading × List ℚ)
  | [], buf => .ok ([], buf)
  | i :: is, buf =>
    match read_sensors cfg ltr559Present pms5003Present i buf with
    | .error e => .error e
    | .ok rb =>
      match sampleWindow cfg ltr559Present pms5003Present is rb.2 with
      | .error e => .error e
      | .ok rest => .ok (rb.1 :: rest.1, rest.2)

/-- A fully successful tick at time `k`, with the particulate read
failing with a timeout when `pmTimeout` is set. -/
def mkScenarioInput (k : ℚ) (pmTimeout : Bool) : SensorInput :=
  { now := k, bmeTemperatureRead := .ok 25, bmePressureRead := .ok 1013,
    bmeHumidityRead := .ok 50,
    gasRead := .ok { oxidising := 12000, reducing := 450000, nh3 := 230000 },
    luxRead := .ok 120, proximityRead := .ok 0,
    pmRead :=
      if pmTimeout then .error .readTimeout
      else .ok { pm1 := 2, pm2_5 := 5, pm10 := 8, particles_03um := 100,
                 particles_05um := 50, particles_10um := 20,
                 particles_25um := 5, particles_50um := 2,
                 particles_100um := 1 },
    cpuTemperatureRead := some 45 }

/-- The 5-tick window with a particulate timeout on the 4th tick. -/
def scenarioInputs : List SensorInput :=
  [mkScenarioInput 0 false, mkScenarioInput 1 false, mkScenarioInput 2 false,
   mkScenarioInput 3 true, mkScenarioInput 4 false]

/-- The readings collected over `scenarioInputs`. -/
def scenarioReadings : List Reading :=
  match sampleWindow fullConfig true true scenarioInputs [] with
  | .ok x => x.1
  | .error _ => []

/-- The reading assembled on the fully successful tick
`mkScenarioInput 0 false` starting from an empty proxy buffer:
the compensated temperature is `25 - ((45 - 25) / (225/100)) = 145/9`
and the gas resistances are stored divided by 1000. -/
def okTickReading : Reading :=
  { timestamp := 0, latitude := STATION_LATITUDE,
    longitude := STATION_LONGITUDE,
    temperature := some (145 / 9), raw_temperature := some 25,
    pressure := some 1013, humidity := some 50,
    oxidised := some 12, reducing := some 450, nh3 := some 230,
    lux := some 120, proximity := some 0,
    pm1 := some 2, pm2_5 := some 5, pm10 := some 8,
    particles_03um := some 100, particles_05um := some 50,
    particles_10um := some 20, particles_25um := some 5,
    particles_50um := some 2, particles_100um := some 1 }

/-- A tick on which every device answers except the gas sensor, whose
read raises an invalid-value error. -/
def gasFailureInput : SensorInput :=
  { now := 0, bmeTemperatureRead := .ok 25, bmePressureRead := .ok 1013,
    bmeHumidityRead := .ok 50, gasRead := .error .invalidValue,
    luxRead := .ok 120, proximityRead := .ok 0,
    pmRead := .ok { pm1 := 2, pm2_5 := 5, pm10 := 8, particles_03um := 100,
                    particles_05um := 50, particles_10um := 20,
                    particles_25um := 5, particles_50um := 2,
                    particles_100um := 1 },
    cpuTemperatureRead := some 45 }

/-! ### Partitioned writer (src/main.py lines 190-230) -/

/-- Civil date `(year, month, day)` of a day count since 1970-01-01
(the computation `datetime.fromtimestamp` performs for the UTC zone). -/
def civilFromDays (z0 : Nat) : Nat × Nat × Nat :=
  let z := z0 + 719468
  let era := z / 146097
  let doe := z % 146097
  let yoe := (doe - doe / 1460 + doe / 36524 - doe / 146096) / 365
  let y := yoe + era * 400
  let doy := doe - (365 * yoe + yoe / 4 - yoe / 100)
  let mp := (5 * doy + 2) / 153
  let d := doy - (153 * mp + 2) / 5 + 1
  let m := if mp < 10 then mp + 3 else mp - 9
  (if m ≤ 2 then y + 1 else y, m, d)

/-- Zero-padded two-digit decimal field, as `strftime` renders `%m`,
`%d`, `%H`, `%M`. -/
def pad2 (n : Nat) : String :=
  if n < 10 then "0" ++ toString n else toString n

/-- Zero-padded four-digit decimal field, as `strftime` renders `%Y`. -/
def pad4 (n : Nat) : String :=
  if n < 10 then "000" ++ toString n
  else if n < 100 then "00" ++ toString n
  else if n < 1000 then "0" ++ toString n
  else toString n

/-- src/main.py lines 192-195: the batch end time with its minute
rounded down to a multiple of 5 and its seconds dropped. -/
def roundedBoundary (t : Nat) : Nat :=
  let rounded_minute := 5 * (minuteOf t / 5)
  t - (minuteOf t - rounded_minute) * 60 - secondOf t

/-- src/main.py lines 214-219: filename from the configured batch
duration and the rounded batch end time. -/
def filenameFor (dur : Nat) (t : Nat) : String :=
  if dur ≤ 300 then "data_" ++ pad2 (hourOf t) ++ pad2 (minuteOf t) ++ ".parquet"
  else if dur ≤ 3600 then "data_" ++ pad2 (hourOf t) ++ ".parquet"
  else "data.parquet"

/-- src/main.py lines 208-226: the committed file path for the window
that ended at boundary `b`, for a configured duration `dur` (the source
sets `dur = BATCH_DURATION`). -/
def outputPath (dur : Nat) (b : Nat) (stationId : String) : String :=
  let rd := roundedBoundary b
  let ymd := civilFromDays (rd / 86400)
  "output/station=" ++ stationId ++ "/year=" ++ pad4 ymd.1 ++
    "/month=" ++ pad2 ymd.2.1 ++ "/day=" ++ pad2 ymd.2.2 ++ "/" ++
    filenameFor dur rd

/-- src/main.py lines 201-206: before encoding, the timestamp column is
truncated to whole seconds (`.dt.floor`); no other column changes. -/
def floorTimestampsColumn (batch : List Reading) : List Reading :=
  batch.map fun r => { r with timestamp := ((⌊r.timestamp⌋ : ℤ) : ℚ) }

/-! ### Daily aggregation (src/scripts/daily_aggregation.py lines 29-131) -/

/-- Observable outcome of one run of the aggregation script's `main`:
whether the `COPY ... TO` upload executed, whether the no-data message
was printed, and the value returned to `sys.exit`. -/
structure AggOutcome where
  wrotePath : Bool
  printedNoData : Bool
  exitCode : Nat
deriving DecidableEq

/-- Lines 71-125 as a function of the source row count: a zero count
prints the no-data message and returns 1 before any write; otherwise the
COPY runs and 0 is returned. -/
def daily_aggregation_main (sourceRowCount : Nat) : AggOutcome :=
  if sourceRowCount = 0 then
    { wrotePath := false, printedNoData := true, exitCode := 1 }
  else
    { wrotePath := true, printedNoData := false, exitCode := 0 }

/-- Line 129: the `except` branch of the script returns 1. -/
def aggregationErrorExit : Nat := 1

/-! ### Scheduler arithmetic lemmas -/

lemma realignBoundary_eq_ceil (t : Nat) :
    realignBoundary t = 300 * ((t + 299) / 300) := by
  unfold realignBoundary minuteOf secondOf
  dsimp only
  split <;> omega

lemma realignBoundary_of_aligned {t : Nat} (h : t % 300 = 0) :
    realignBoundary t = t := by
  rw [realignBoundary_eq_ceil]; omega

lemma nextBoundary_of_aligned {b : Nat} (h : b % 300 = 0) :
    nextBoundary b = b + 300 := by
  unfold nextBoundary BATCH_DURATION
  rw [realignBoundary_eq_ceil]
  omega

lemma firstBoundary_aligned (now : Nat) : firstBoundary now % 300 = 0 := by
  unfold firstBoundary firstBatchDuration BATCH_DURATION minuteOf secondOf
  dsimp only
  split <;> split <;> omega

lemma firstBoundary_of_aligned {now : Nat} (h : now % 300 = 0) :
    firstBoundary now = now + BATCH_DURATION := by
  unfold firstBoundary firstBatchDuration BATCH_DURATION minuteOf secondOf
  dsimp only
  split <;> split <;> omega

lemma firstBoundary_formula (now : Nat) :
    firstBoundary now = 300 * (now / 300) + 300 := by
  unfold firstBoundary firstBatchDuration BATCH_DURATION minuteOf secondOf
  dsimp only
  split <;> split <;> omega

/-! ### Run-loop invariants -/

lemma runLoop_nil (s : SchedState) : runLoop s [] = (s, []) := rfl

lemma runLoop_cons_flush {s : SchedState} {t : Nat} (h : s.nextEnd ≤ t)
    (ts : List Nat) :
    runLoop s (t :: ts) =
      ((runLoop ⟨[], nextBoundary s.nextEnd⟩ ts).1,
        (s.nextEnd, s.batch ++ [t]) :: (runLoop ⟨[], nextBoundary s.nextEnd⟩ ts).2) := by
  simp [runLoop, h]

lemma runLoop_cons_accum {s : SchedState} {t : Nat} (h : ¬ s.nextEnd ≤ t)
    (ts : List Nat) :
    runLoop s (t :: ts) = runLoop ⟨s.batch ++ [t], s.nextEnd⟩ ts := by
  simp [runLoop, h]

/-- Every flush boundary emitted from a grid-aligned state is the
starting boundary advanced by a whole number of 300-second windows, and
the loop preserves grid alignment. -/
lemma runLoop_boundary_get :
    ∀ (ts : List Nat) (s : SchedState), s.nextEnd % 300 = 0 →
      (∀ i (h : i < (runLoop s ts).2.length),
          ((runLoop s ts).2.get ⟨i, h⟩).1 = s.nextEnd + 300 * i)
        ∧ (runLoop s ts).1.nextEnd % 300 = 0 := by
  intro ts
  induction ts with
  | nil => intro s hs; simpa [runLoop_nil] using hs
  | cons t ts ih =>
    intro s hs
    by_cases hle : s.nextEnd ≤ t
    · have hnext : nextBoundary s.nextEnd = s.nextEnd + 300 :=
        nextBoundary_of_aligned hs
      have hmod : (SchedState.mk [] (nextBoundary s.nextEnd)).nextEnd % 300 = 0 := by
        simp [hnext]; omega
      obtain ⟨ihget, ihmod⟩ := ih ⟨[], nextBoundary s.nextEnd⟩ hmod
      rw [runLoop_cons_flush hle]
      refine ⟨?_, ihmod⟩
      intro i h
      match i with
      | 0 => simp
      | Nat.succ j =>
        have hj : j < (runLoop ⟨[], nextBoundary s.nextEnd⟩ ts).2.length := by
          simpa using h
        have := ihget j hj
        simp only [List.get_cons_succ]
        rw [this, hnext]
        simp only []
        omega
    · have hmod : (SchedState.mk (s.batch ++ [t]) s.nextEnd).nextEnd % 300 = 0 := hs
      obtain ⟨ihget, ihmod⟩ := ih ⟨s.batch ++ [t], s.nextEnd⟩ hmod
      rw [runLoop_cons_accum hle]
      exact ⟨ihget, ihmod⟩

/-- The flushed batches, concatenated in order, followed by the still
buffered readings, are exactly the tick stream appended to the initial
buffer: every reading lands in exactly one batch and the buffer is
cleared at each flush. -/
lemma runLoop_partition :
    ∀ (ts : List Nat) (s : SchedState),
      ((runLoop s ts).2.map Prod.snd).flatten ++ (runLoop s ts).1.batch
        = s.batch ++ ts := by
  intro ts
  induction ts with
  | nil => intro s; simp [runLoop_nil]
  | cons t ts ih =>
    intro s
    by_cases hle : s.nextEnd ≤ t
    · rw [runLoop_cons_flush hle]
      have := ih ⟨[], nextBoundary s.nextEnd⟩
      simp only [List.map_cons, List.flatten_cons] at *
      simp only [List.nil_append] at this
      rw [List.append_assoc, this]
      simp
    · rw [runLoop_cons_accum hle]
      have := ih ⟨s.batch ++ [t], s.nextEnd⟩
      simp only at this
      rw [this]
      simp

/-- Each flushed batch splits as earlier readings, all sampled strictly
before the flushed boundary, plus one final reading whose tick reached
or passed the boundary. -/
lemma runLoop_flush_shape :
    ∀ (ts : List Nat) (s : SchedState), (∀ x ∈ s.batch, x < s.nextEnd) →
      ∀ e ∈ (runLoop s ts).2,
        ∃ pre last, e.2 = pre ++ [last] ∧ e.1 ≤ last ∧ ∀ x ∈ pre, x < e.1 := by
  intro ts
  induction ts with
  | nil => intro s hs e he; simp [runLoop_nil] at he
  | cons t ts ih =>
    intro s hs e he
    by_cases hle : s.nextEnd ≤ t
    · rw [runLoop_cons_flush hle] at he
      rcases List.mem_cons.mp he with h1 | h2
      · subst h1
        exact ⟨s.batch, t, rfl, hle, hs⟩
      · exact ih ⟨[], nextBoundary s.nextEnd⟩ (by simp) e h2
    · rw [runLoop_cons_accum hle] at he
      refine ih ⟨s.batch ++ [t], s.nextEnd⟩ ?_ e he
      intro x hx
      rcases List.mem_append.mp hx with h1 | h2
      · exact hs x h1
      · simp only [List.mem_singleton] at h2
        simp only []
        omega

/-! ### Compensation-filter lemmas -/

lemma replicate_five (x : ℚ) :
    List.replicate 5 x = [x, x, x, x, x] := rfl

lemma compensate_first (raw proxy : ℚ) :
    compensate_temperature true [] raw proxy =
      (raw - ((proxy - raw) / TEMP_COMPENSATION_FACTOR),
        List.replicate 5 proxy) := by
  unfold compensate_temperature
  rw [replicate_five]
  norm_num
  have hp : (proxy + (proxy + (proxy + (proxy + proxy)))) / 5 = proxy := by ring
  rw [hp]

lemma compensate_steady (raw proxy : ℚ) :
    compensate_temperature true (List.replicate 5 proxy) raw proxy =
      (raw - ((proxy - raw) / TEMP_COMPENSATION_FACTOR),
        List.replicate 5 proxy) := by
  unfold compensate_temperature
  rw [replicate_five]
  norm_num
  have hp : (proxy + (proxy + (proxy + (proxy + proxy)))) / 5 = proxy := by ring
  rw [hp]

lemma compSeq_steady (raw proxy : ℚ) :
    ∀ n, compSeq raw proxy (List.replicate 5 proxy) n =
      (List.replicate n (raw - ((proxy - raw) / TEMP_COMPENSATION_FACTOR)),
        List.replicate 5 proxy) := by
  intro n
  induction n with
  | zero => simp [compSeq]
  | succ k ih =>
    have hrep : List.replicate (k + 1)
        (raw - (proxy - raw) / TEMP_COMPENSATION_FACTOR)
        = (raw - (proxy - raw) / TEMP_COMPENSATION_FACTOR) ::
          List.replicate k (raw - (proxy - raw) / TEMP_COMPENSATION_FACTOR) := rfl
    rw [hrep]
    simp only [compSeq, compensate_steady, ih]

lemma compSeq_from_empty (raw proxy : ℚ) (n : Nat) :
    compSeq raw proxy [] (n + 1) =
      (List.replicate (n + 1) (raw - ((proxy - raw) / TEMP_COMPENSATION_FACTOR)),
        List.replicate 5 proxy) := by
  have h1 : compSeq raw proxy [] (n + 1) =
      ((compensate_temperature true [] raw proxy).1 ::
        (compSeq raw proxy (compensate_temperature true [] raw proxy).2 n).1,
       (compSeq raw proxy (compensate_temperature true [] raw proxy).2 n).2) := rfl
  rw [h1, compensate_first]
  dsimp only
  rw [compSeq_steady]
  rfl

/-! ### Sensor-block lemmas -/

lemma ltrBlock_gas_fields {cfg : SensorConfig} {lp : Bool}
    {inp : SensorInput} {data r : Reading}
    (h : ltrBlock cfg lp inp data = .ok r) :
    r.oxidised = data.oxidised ∧ r.reducing = data.reducing
      ∧ r.nh3 = data.nh3 := by
  unfold ltrBlock at h
  split at h
  · split at h
    · exact absurd h (by simp)
    · split at h
      · exact absurd h (by simp)
      · cases h
        exact ⟨rfl, rfl, rfl⟩
  · cases h
    exact ⟨rfl, rfl, rfl⟩

lemma pmBlock_gas_fields (cfg : SensorConfig) (pp : Bool)
    (inp : SensorInput) (data : Reading) :
    (pmBlock cfg pp inp data).oxidised = data.oxidised
  ∧ (pmBlock cfg pp inp data).reducing = data.reducing
  ∧ (pmBlock cfg pp inp data).nh3 = data.nh3 := by
  unfold pmBlock
  split
  · split
    · exact ⟨rfl, rfl, rfl⟩
    · exact ⟨rfl, rfl, rfl⟩
  · exact ⟨rfl, rfl, rfl⟩

/-! ### Claim C1 -/

/-- C1 (confirmed).  Over every sequence of tick times driving the
loop, the flushed boundaries are exactly `firstBoundary now +
BATCH_DURATION * k` for consecutive `k` — a strictly increasing
arithmetic sequence with common difference `BATCH_DURATION`, the same
for all tick sequences, so per-tick jitter never enters; and the
advance step `nextBoundary` is the previous boundary plus the
configured duration re-aligned upward to the nearest 300 s granularity
multiple, with the current wall-clock time not an input. -/
theorem scheduler_boundaries_arithmetic (now : Nat) (ts : List Nat) :
    (∀ b, nextBoundary b = 300 * ((b + BATCH_DURATION + 299) / 300))
  ∧ (flushEvents (firstBoundary now) ts).map Prod.fst =
      (List.range (flushEvents (firstBoundary now) ts).length).map
        (fun k => firstBoundary now + BATCH_DURATION * k) := by
  constructor
  · intro b
    exact realignBoundary_eq_ceil (b + BATCH_DURATION)
  · have hb : (SchedState.mk [] (firstBoundary now)).nextEnd % 300 = 0 :=
      firstBoundary_aligned now
    obtain ⟨hget, -⟩ := runLoop_boundary_get ts ⟨[], firstBoundary now⟩ hb
    apply List.ext_get
    · simp
    · intro i h1 h2
      have hi : i < (flushEvents (firstBoundary now) ts).length := by
        simpa using h1
      have hx := hget i hi
      simp only [flushEvents] at hx ⊢
      simp only [List.get_eq_getElem, List.getElem_map, List.getElem_range]
      simp only [List.get_eq_getElem] at hx
      rw [hx]
      simp only [BATCH_DURATION]

/-! ### Claim C2 -/

/-- C2 counterexample.  The alignment granularity is hard-coded to 5
minutes in src/main.py lines 166-175: starting at 12:00:07Z (second
43207 of the epoch day), the first boundary is 12:05:00Z (43500), not
the 12:01:00Z (43260) required by the claim's 60-second-granularity
scenario. -/
theorem first_boundary_granularity_counterexample :
    firstBoundary 43207 = 43500 ∧ firstBoundary 43207 ≠ 43260 := by decide

/-- C2 (amended).  The first boundary is the next multiple of the
granularity after the start — but the granularity is the hard-coded
300 s (5 minutes), not a configurable value: a start exactly on the
grid gets a full `BATCH_DURATION` window rather than a zero-length one,
any other start is aligned up to `300 * (now / 300) + 300`; from start
12:00:07Z the first boundary is 12:05:00Z (a 293-second first window)
and the following boundaries are 12:10:00Z, 12:15:00Z, 300 s apart. -/
theorem first_boundary_amended :
    (∀ now : Nat, now % 300 = 0 → firstBoundary now = now + BATCH_DURATION)
  ∧ (∀ now : Nat, firstBoundary now = 300 * (now / 300) + 300)
  ∧ firstBoundary 43207 = 43500
  ∧ firstBoundary 43207 - 43207 = 293
  ∧ nextBoundary 43500 = 43800
  ∧ nextBoundary 43800 = 44100 := by
  refine ⟨fun now h => firstBoundary_of_aligned h, firstBoundary_formula,
    by decide, by decide, by decide, by decide⟩

/-- Witness for the amended C2 at the aligned start 600. -/
theorem first_boundary_amended_witness :
    firstBoundary 600 = 600 + BATCH_DURATION :=
  first_boundary_amended.1 600 (by decide)

/-! ### Claim C3 -/

/-- C3 (confirmed).  The flushed batches partition the tick stream in
order (so each batch is exactly the readings sampled since the previous
flush, and the buffer restarts empty after each flush), and each batch
is earlier readings, all strictly before the flushed boundary, plus a
single final reading whose tick reached or passed the boundary —
because the reading is appended before the boundary check. -/
theorem flushed_batch_contents (b0 : Nat) (ts : List Nat) :
    ((runLoop ⟨[], b0⟩ ts).2.map Prod.snd).flatten
        ++ (runLoop ⟨[], b0⟩ ts).1.batch = ts
  ∧ ∀ e ∈ flushEvents b0 ts,
      ∃ pre last, e.2 = pre ++ [last] ∧ e.1 ≤ last ∧ ∀ x ∈ pre, x < e.1 := by
  constructor
  · simpa using runLoop_partition ts ⟨[], b0⟩
  · exact runLoop_flush_shape ts ⟨[], b0⟩ (by simp)

/-- Witness for C3: with first boundary 10 and ticks at 5 and 12, the
single flushed batch is `[5, 12]` at boundary 10. -/
theorem flushed_batch_contents_witness :
    ∃ pre last, ([5, 12] : List Nat) = pre ++ [last] ∧ 10 ≤ last
      ∧ ∀ x ∈ pre, x < 10 :=
  (flushed_batch_contents 10 [5, 12]).2 (10, [5, 12]) (by decide)

/-! ### Claim C4 -/

/-- C4 (confirmed).  With compensation enabled: a first call on the
empty buffer fills it with 5 copies of the proxy sample, a later call
evicts the oldest entry and appends the new sample, the returned value
is `raw - ((mean buffer - raw) / TEMP_COMPENSATION_FACTOR)` for the
updated buffer, and over 10 consecutive calls with constant inputs the
buffer equals five copies of the proxy from the first call onward while
every output equals `raw - (proxy - raw) / factor`. -/
theorem compensation_filter_behaviour (raw proxy : ℚ) (st : List ℚ)
    (hst : st ≠ []) :
    (compensate_temperature true [] raw proxy).2 = List.replicate 5 proxy
  ∧ (compensate_temperature true st raw proxy).2 = st.tail ++ [proxy]
  ∧ (∀ st2 : List ℚ,
      (compensate_temperature true st2 raw proxy).1 =
        raw - (((compensate_temperature true st2 raw proxy).2.sum /
            ((compensate_temperature true st2 raw proxy).2.length : ℚ) - raw) /
          TEMP_COMPENSATION_FACTOR))
  ∧ (compSeq raw proxy [] 10).1 =
      List.replicate 10 (raw - ((proxy - raw) / TEMP_COMPENSATION_FACTOR))
  ∧ ∀ k, 0 < k → (compSeq raw proxy [] k).2 = List.replicate 5 proxy := by
  refine ⟨by rw [compensate_first], ?_, fun st2 => rfl, ?_, ?_⟩
  · unfold compensate_temperature
    have : st.length ≠ 0 := fun hc => hst (List.length_eq_zero.mp hc)
    simp [this]
  · have h := compSeq_from_empty raw proxy 9
    rw [h]
  · intro k hk
    match k, hk with
    | n + 1, _ =>
      rw [compSeq_from_empty]

/-- Witness for C4 at raw 1, proxy 2, buffer `[3]`. -/
theorem compensation_filter_behaviour_witness :
    (compensate_temperature true [] (1 : ℚ) 2).2 = List.replicate 5 2 :=
  (compensation_filter_behaviour 1 2 [3] (by simp)).1

/-! ### Claim C5 -/

/-- C5 counterexample.  Only the particulate read is guarded in
src/main.py lines 136-156; the gas read (lines 125-130) is not: on a
tick where `gas.read_all()` raises an invalid-value error and every
other device answers, `read_sensors` aborts with that error and no
reading is produced at all, contrary to the claim that an error in any
enabled capability only nulls that capability's fields. -/
theorem sampler_unguarded_capability_counterexample :
    read_sensors fullConfig true true gasFailureInput [] =
      .error SensorFailure.invalidValue := by decide

/-- C5 (amended).  Only the particulate capability's timeout or
invalid-value errors are recovered: with every other read succeeding, a
particulate failure yields a complete reading whose nine particulate
fields alone are null; errors raised by the other capability reads
propagate and abort the reading.  In the 5-tick window with a
particulate timeout on the 4th tick, all 5 readings are produced and
the particulate fields are null exactly on the 4th record. -/
theorem sampler_pm_failure_amended (inp : SensorInput) (buf : List ℚ)
    (t p h l prox : ℚ) (g : GasReading) (e : SensorFailure)
    (ht : inp.bmeTemperatureRead = .ok t) (hp : inp.bmePressureRead = .ok p)
    (hh : inp.bmeHumidityRead = .ok h) (hg : inp.gasRead = .ok g)
    (hl : inp.luxRead = .ok l) (hx : inp.proximityRead = .ok prox)
    (hpm : inp.pmRead = .error e) :
    read_sensors fullConfig true true inp buf =
      .ok ({ timestamp := inp.now,
             latitude := STATION_LATITUDE,
             longitude := STATION_LONGITUDE,
             temperature := some (compensate_temperature
               TEMP_COMPENSATION_ENABLED buf t
               (get_cpu_temperature inp.cpuTemperatureRead)).1,
             raw_temperature := some t,
             pressure := some p,
             humidity := some h,
             oxidised := some (g.oxidising / 1000),
             reducing := some (g.reducing / 1000),
             nh3 := some (g.nh3 / 1000),
             lux := some l,
             proximity := some prox,
             pm1 := none,
             pm2_5 := none,
             pm10 := none,
             particles_03um := none,
             particles_05um := none,
             particles_10um := none,
             particles_25um := none,
             particles_50um := none,
             particles_100um := none },
           (compensate_temperature TEMP_COMPENSATION_ENABLED buf t
             (get_cpu_temperature inp.cpuTemperatureRead)).2)
  ∧ scenarioReadings.length = 5
  ∧ scenarioReadings.map (fun r => r.pm1)
      = [some 2, some 2, some 2, none, some 2]
  ∧ scenarioReadings.map (fun r => r.pm2_5)
      = [some 5, some 5, some 5, none, some 5]
  ∧ scenarioReadings.map (fun r => r.pm10)
      = [some 8, some 8, some 8, none, some 8]
  ∧ scenarioReadings.map (fun r => r.particles_03um)
      = [some 100, some 100, some 100, none, some 100]
  ∧ scenarioReadings.map (fun r => r.particles_100um)
      = [some 1, some 1, some 1, none, some 1]
  ∧ scenarioReadings.map (fun r => r.temperature.isSome)
      = [true, true, true, true, true]
  ∧ scenarioReadings.map (fun r => r.oxidised.isSome)
      = [true, true, true, true, true] := by
  refine ⟨?_, by decide, by decide, by decide, by decide, by decide,
    by decide, by decide, by decide⟩
  simp [read_sensors, bmeBlock, gasBlock, ltrBlock, pmBlock, fullConfig,
    emptyReading, ht, hp, hh, hg, hl, hx, hpm]

/-- Witness for the amended C5 at the 4th scenario tick. -/
theorem sampler_pm_failure_amended_witness :
    scenarioReadings.length = 5 :=
  (sampler_pm_failure_amended (mkScenarioInput 3 true) [] 25 1013 50 120 0
    { oxidising := 12000, reducing := 450000, nh3 := 230000 }
    SensorFailure.readTimeout rfl rfl rfl rfl rfl rfl rfl).2.1

/-! ### Claim C6 -/

lemma roundedBoundary_of_aligned {b : Nat} (hb : b % 300 = 0) :
    roundedBoundary b = b := by
  unfold roundedBoundary minuteOf secondOf
  dsimp only
  omega

/-- C6 (confirmed).  For a grid-aligned window boundary the committed
path is `output/station=<id>/year=<YYYY>/month=<MM>/day=<DD>/<file>`
with the date fields those of the boundary itself, and the filename is
`data_<HHMM>.parquet` when the configured duration is at most 300 s,
`data_<HH>.parquet` when at most 3600 s, and `data.parquet` otherwise,
with hour and minute those of the boundary. -/
theorem output_path_from_boundary (dur b : Nat) (sid : String)
    (hb : b % 300 = 0) :
    outputPath dur b sid =
      "output/station=" ++ sid ++ "/year=" ++
        pad4 (civilFromDays (b / 86400)).1 ++ "/month=" ++
        pad2 (civilFromDays (b / 86400)).2.1 ++ "/day=" ++
        pad2 (civilFromDays (b / 86400)).2.2 ++ "/" ++
        (if dur ≤ 300 then
          "data_" ++ pad2 (hourOf b) ++ pad2 (minuteOf b) ++ ".parquet"
        else if dur ≤ 3600 then "data_" ++ pad2 (hourOf b) ++ ".parquet"
        else "data.parquet") := by
  unfold outputPath filenameFor
  dsimp only
  rw [roundedBoundary_of_aligned hb]

/-- Witness for C6 at boundary 43500 (1970-01-01 12:05:00Z) with the
source duration 300 and station "01". -/
theorem output_path_from_boundary_witness :
    outputPath 300 43500 "01" =
      "output/station=01/year=1970/month=01/day=01/data_1205.parquet" := by
  rw [output_path_from_boundary 300 43500 "01" (by decide)]
  rfl

/-! ### Claim C8 -/

/-- C8 counterexample.  With zero input rows the aggregation script does
print the no-data message and performs no write, but it returns 1 — the
same exit status as its error path — so at the process level the
no-data case is signalled as a failure, not distinguished from an
error. -/
theorem aggregation_no_data_exit_counterexample :
    (daily_aggregation_main 0).wrotePath = false
  ∧ (daily_aggregation_main 0).printedNoData = true
  ∧ (daily_aggregation_main 0).exitCode = aggregationErrorExit
  ∧ (daily_aggregation_main 0).exitCode ≠ 0 := by decide

/-- C8 (amended).  On zero input rows the aggregator prints the no-data
message and performs no write, but exits with status 1, identical to
the status of the error path; a non-zero row count writes and exits
0. -/
theorem aggregation_no_data_amended :
    (daily_aggregation_main 0).printedNoData = true
  ∧ (daily_aggregation_main 0).wrotePath = false
  ∧ (daily_aggregation_main 0).exitCode = 1
  ∧ ∀ n : Nat, n ≠ 0 →
      (daily_aggregation_main n).wrotePath = true
        ∧ (daily_aggregation_main n).exitCode = 0 := by
  refine ⟨rfl, rfl, rfl, ?_⟩
  intro n hn
  unfold daily_aggregation_main
  simp [hn]

/-- Witness for the amended C8 at 5 input rows. -/
theorem aggregation_no_data_amended_witness :
    (daily_aggregation_main 5).wrotePath = true
      ∧ (daily_aggregation_main 5).exitCode = 0 :=
  aggregation_no_data_amended.2.2.2 5 (by decide)

/-! ### Claim C9 -/

/-- C9 (confirmed).  Before encoding, every record's timestamp is
replaced by its floor to whole seconds — an integer at most the sampled
instant and within one second of it — while every other field of the
record is unchanged. -/
theorem timestamp_floor_before_encoding (batch : List Reading) (i : Nat)
    (h : i < batch.length) (h2 : i < (floorTimestampsColumn batch).length) :
    ((floorTimestampsColumn batch).get ⟨i, h2⟩).timestamp =
        ((⌊(batch.get ⟨i, h⟩).timestamp⌋ : ℤ) : ℚ)
  ∧ ((floorTimestampsColumn batch).get ⟨i, h2⟩).timestamp
      ≤ (batch.get ⟨i, h⟩).timestamp
  ∧ (batch.get ⟨i, h⟩).timestamp
      < ((floorTimestampsColumn batch).get ⟨i, h2⟩).timestamp + 1
  ∧ (floorTimestampsColumn batch).get ⟨i, h2⟩ =
      { batch.get ⟨i, h⟩ with
          timestamp := ((⌊(batch.get ⟨i, h⟩).timestamp⌋ : ℤ) : ℚ) } := by
  have hmap : (floorTimestampsColumn batch).get ⟨i, h2⟩ =
      { batch.get ⟨i, h⟩ with
          timestamp := ((⌊(batch.get ⟨i, h⟩).timestamp⌋ : ℤ) : ℚ) } := by
    unfold floorTimestampsColumn
    simp [List.get_eq_getElem]
  refine ⟨by rw [hmap], ?_, ?_, hmap⟩
  · rw [hmap]
    exact Int.floor_le _
  · rw [hmap]
    exact Int.lt_floor_add_one _

/-- Witness for C9 on a one-record batch with timestamp 5/2. -/
theorem timestamp_floor_before_encoding_witness :
    ((floorTimestampsColumn [emptyReading (5 / 2)]).get
        ⟨0, by decide⟩).timestamp =
      ((⌊(([emptyReading (5 / 2)].get ⟨0, by decide⟩).timestamp)⌋ : ℤ) : ℚ) :=
  (timestamp_floor_before_encoding [emptyReading (5 / 2)] 0 (by decide)
    (by decide)).1

/-! ### Claim C10 -/

/-- C10 (confirmed).  Whenever the gas capability is enabled, its read
succeeds and a reading is produced, the stored oxidised, reducing and
nh3 fields are the raw `gas.read_all()` resistances (ohms) divided by
1000, i.e. kilo-ohms. -/
theorem gas_fields_kilo_ohms (cfg : SensorConfig) (lp pp : Bool)
    (inp : SensorInput) (buf : List ℚ) (r : Reading) (buf2 : List ℚ)
    (g : GasReading) (hok : read_sensors cfg lp pp inp buf = .ok (r, buf2))
    (hgas : cfg.gas = true) (hg : inp.gasRead = .ok g) :
    r.oxidised = some (g.oxidising / 1000)
  ∧ r.reducing = some (g.reducing / 1000)
  ∧ r.nh3 = some (g.nh3 / 1000) := by
  unfold read_sensors at hok
  cases hb : bmeBlock cfg inp buf (emptyReading inp.now) with
  | error e =>
    rw [hb] at hok
    exact absurd hok (by simp)
  | ok s1 =>
    rw [hb] at hok
    dsimp only at hok
    have hgb : gasBlock cfg inp s1.1 =
        .ok { s1.1 with
                oxidised := some (g.oxidising / 1000),
                reducing := some (g.reducing / 1000),
                nh3 := some (g.nh3 / 1000) } := by
      simp [gasBlock, hgas, hg]
    rw [hgb] at hok
    dsimp only at hok
    cases hlt : ltrBlock cfg lp inp
        { s1.1 with
            oxidised := some (g.oxidising / 1000),
            reducing := some (g.reducing / 1000),
            nh3 := some (g.nh3 / 1000) } with
    | error e =>
      rw [hlt] at hok
      exact absurd hok (by simp)
    | ok r3 =>
      rw [hlt] at hok
      dsimp only at hok
      have hr : r = pmBlock cfg pp inp r3 := by
        have := hok
        simp only [Except.ok.injEq, Prod.mk.injEq] at this
        exact this.1.symm
      obtain ⟨l1, l2, l3⟩ := ltrBlock_gas_fields hlt
      obtain ⟨p1, p2, p3⟩ := pmBlock_gas_fields cfg pp inp r3
      rw [hr]
      exact ⟨by rw [p1, l1], by rw [p2, l2], by rw [p3, l3]⟩

/-- Witness for C10 on the fully successful tick
`mkScenarioInput 0 false`. -/
theorem gas_fields_kilo_ohms_witness :
    okTickReading.oxidised = some ((12000 : ℚ) / 1000)
  ∧ okTickReading.reducing = some ((450000 : ℚ) / 1000)
  ∧ okTickReading.nh3 = some ((230000 : ℚ) / 1000) :=
  gas_fields_kilo_ohms fullConfig true true (mkScenarioInput 0 false) []
    okTickReading (List.replicate 5 45)
    { oxidising := 12000, reducing := 450000, nh3 := 230000 }
    (by
      simp [read_sensors, bmeBlock, gasBlock, ltrBlock, pmBlock, fullConfig,
        emptyReading, mkScenarioInput, okTickReading, compensate_temperature,
        get_cpu_temperature, TEMP_COMPENSATION_ENABLED,
        TEMP_COMPENSATION_FACTOR, replicate_five]
      norm_num)
    rfl rfl

end ParquetEdge
